import Mathlib

/-!
# Verification of the clinical-filter trio variant filtering engine

Shallow embedding of the repository's core modules:

* `src/src/main/python/clinicalfilter/vcf_info.py` — the `VcfInfo` class:
  INFO parsing (`add_info`, `add_consequence`), numeric coercion
  (`get_number`, `is_number`), the per-field filter checks (`passes_list`,
  `passes_smaller_than`), the maximum-allele-frequency aggregation
  (`find_max_allele_frequency`), the compound rule
  (`passes_multiple_filter`) and the driver (`passes_filters`).
* `src/clinicalfilter/load_vcfs.py` — the loader functions
  (`include_variant`, `open_individual`) and the trio resolver's
  parental-record matching/synthesis (`get_parental_var`).

Modelling conventions:
* Python floating point numbers are modelled by exact rationals `ℚ`.  The
  numeric comparisons examined here (thresholds `0.005` and the configured
  bounds) are far coarser than binary64 rounding error, so the boolean
  outcomes agree with the Python semantics.
* Python dictionaries are modelled as insertion-ordered association lists
  (`Dict`), with `dinsert` giving Python's update-in-place-or-append
  semantics and `List.lookup` giving item access.
* Exceptions are modelled with `Option`: a `none` result stands for the
  raised exception that the caller catches.
-/

/-- A value held in a Python dict used by `VcfInfo`: entries of the INFO
column are either strings (`vstr`), the boolean flag `True` for entries
lacking an `=` (`vflag`), or `None` (`vnone`, used for an absent
consequence in `add_consequence`). -/
inductive Val where
  | vstr (s : String)
  | vflag
  | vnone
deriving DecidableEq

/-- A Python dict in insertion order, as `VcfInfo.info` holds it. -/
abbrev Dict := List (String × Val)

/-- Python assignment `d[k] = v` on a dict: replace the binding in place when the key
exists, append otherwise (Python dicts preserve insertion order and keep
the original position on overwrite). -/
def dinsert (d : Dict) (k : String) (v : Val) : Dict :=
  match d with
  | [] => [(k, v)]
  | (k', v') :: rest => if k' = k then (k', v) :: rest else (k', v') :: dinsert rest k v

/-- Python's `str.split(sep)` for a one-character separator: never returns
an empty list, the empty string splits to `[[]]`, and consecutive
separators yield empty pieces. -/
def splitChar (sep : Char) : List Char → List (List Char)
  | [] => [[]]
  | c :: rest =>
    match splitChar sep rest with
    | [] => [[]]
    | g :: gs => if c = sep then [] :: g :: gs else (c :: g) :: gs

/-- Numeric value of a list of decimal digit characters. -/
def digitsToNat (cs : List Char) : Nat :=
  cs.foldl (fun a c => 10 * a + (c.toNat - 48)) 0

/-- The exponent suffix of a float literal: optional sign and at least
one digit, consuming the whole remainder; it scales the mantissa
`m / 10 ^ flen` by the corresponding power of ten. -/
def parseExponentChars (m : Int) (flen : Nat) (r : List Char) : Option ℚ :=
  let signedE : Bool × List Char :=
    match r with
    | '+' :: r' => (false, r')
    | '-' :: r' => (true, r')
    | _ => (false, r)
  let ed := signedE.2.takeWhile (·.isDigit)
  let rest := signedE.2.dropWhile (·.isDigit)
  if ed.isEmpty || !rest.isEmpty then none
  else if signedE.1 then some (mkRat m (10 ^ flen * 10 ^ digitsToNat ed))
  else some (mkRat (m * ((10 ^ digitsToNat ed : Nat) : Int)) (10 ^ flen))

/-- Python's `float(...)` on the characters of a string, returning the
exact rational it denotes.  Handles an optional sign, integer and
fractional digits, and a decimal exponent.  (Python additionally accepts
surrounding whitespace and the words `inf`/`nan`; none of those occur in
the annotation values this program coerces, and `inf`/`nan` have no
rational counterpart.) -/
def parseFloatChars (cs : List Char) : Option ℚ :=
  let signed : Int × List Char :=
    match cs with
    | '+' :: r => (1, r)
    | '-' :: r => (-1, r)
    | _ => (1, cs)
  let sgn := signed.1
  let csA := signed.2
  let ip := csA.takeWhile (·.isDigit)
  let csB := csA.dropWhile (·.isDigit)
  let fracPart : Option (List Char) × List Char :=
    match csB with
    | '.' :: r => (some (r.takeWhile (·.isDigit)), r.dropWhile (·.isDigit))
    | _ => (none, csB)
  let fp := fracPart.1.getD []
  let csC := fracPart.2
  if ip.isEmpty && fp.isEmpty then none
  else
    -- the digits `sgn ip . fp` denote the exact rational `m / 10 ^ fp.length`
    let m : Int := sgn * ((digitsToNat ip * 10 ^ fp.length + digitsToNat fp : Nat) : Int)
    match csC with
    | [] => some (mkRat m (10 ^ fp.length))
    | 'e' :: r => parseExponentChars m fp.length r
    | 'E' :: r => parseExponentChars m fp.length r
    | _ => none

/-- Python's `float(s)` for a string. -/
def floatParse (s : String) : Option ℚ :=
  parseFloatChars s.toList

/-- Source `VcfInfo.get_number`: converts a value into a number.  A direct float
parse is tried first; on `ValueError` the raw string is split on commas
and each piece is tried in turn, the first that parses being returned.
`none` stands for Python's non-float leftover (the unparsed string, or
`None`), which every caller subsequently treats as not-a-number via
`is_number` or a `TypeError` on comparison.  A flag value (`True`)
converts as `float(True) = 1.0`. -/
def get_number (v : Val) : Option ℚ :=
  match v with
  | .vstr s =>
    match floatParse s with
    | some q => some q
    | none => (splitChar ',' s.toList).findSome? parseFloatChars
  | .vflag => some 1
  | .vnone => none

/-- Source `VcfInfo.passes_list`: the value must be a member of the configured
allowed list; a configured value of `None` always fails. -/
def passes_list (value : Val) (filter_values : Option (List Val)) : Bool :=
  match filter_values with
  | none => false
  | some l => decide (value ∈ l)

/-- Source `VcfInfo.passes_smaller_than`: coerce the value with `get_number`; a
non-numeric result raises `TypeError` on the probe comparison, which the
source catches and turns into a pass; otherwise the check requires
`value <= filter_values` (`is_number` is then necessarily true). -/
def passes_smaller_than (value : Val) (filter_values : ℚ) : Bool :=
  match get_number value with
  | none => true
  | some q => decide (q ≤ filter_values)

/-- Source `VcfInfo.find_max_allele_frequency`: fold over the configured
population keys, skipping absent or non-numeric entries, keeping the
largest value starting from `-100`; a final value of `-100` is reported
as the string `"NA"`, modelled as `none` (the numeric string result
round-trips exactly through `str`/`float`, so it is kept as `ℚ`). -/
def find_max_allele_frequency (info : Dict) (populations : List String) : Option ℚ :=
  let m : ℚ := populations.foldl
    (fun acc key =>
      match List.lookup key info with
      | some v =>
        match get_number v with
        | some n => if n > acc then n else acc
        | none => acc
      | none => acc)
    (-100)
  if m = -100 then none else some m

/-- The `VcfInfo` object state read and written by the filtering methods:
the record's coordinates and filter status, the mutation identifier
(`get_mutation_id`, an accessor over the VCF ID column — modelled from
the spec as a plain field, with `"NA"` denoting an unknown identifier),
the configured tag lists, the parsed INFO dict, and the mutable
`show_fail_point` debug flag. -/
structure VcfInfo where
  chrom : String
  position : String
  filter : Val
  mutation_id : String
  tags_consequence : List String
  tags_max_maf : List String
  info : Dict
  show_fail_point : Bool
deriving DecidableEq

/-- The read of `self.info["CQ"]` in `passes_multiple_filter`.  In Python
a missing key would raise `KeyError`; `add_info` guarantees the key is
always present (proved below), so the default returned here for a missing
key is never observed after parsing. -/
def info_cq (s : VcfInfo) : Val :=
  (List.lookup "CQ" s.info).getD Val.vnone

/-- The benign-PolyPhen test of `passes_multiple_filter`:
`"PolyPhen" in self.info and self.info["PolyPhen"].startswith("benign")`.
(A non-string PolyPhen value would raise `AttributeError` in the source;
PolyPhen entries are parsed as strings, so that branch is inert.) -/
def benign_polyphen (info : Dict) : Bool :=
  match List.lookup "PolyPhen" info with
  | some (Val.vstr s) => "benign".toList.isPrefixOf s.toList
  | some _ => false
  | none => false

/-- The `maf` local of `passes_multiple_filter`: the aggregated maximum
allele frequency over the configured `MAX_MAF` populations, with the
`"NA"` sentinel converted to `0`. -/
def maf_value (s : VcfInfo) : ℚ :=
  match find_max_allele_frequency s.info s.tags_max_maf with
  | none => 0
  | some q => q

/-- Source `VcfInfo.passes_multiple_filter`: the compound rule.  Rejects (returns
`false`) when the consequence is `missense_variant` and a benign PolyPhen
annotation is present, and also when the mutation identifier is `"NA"`,
the consequence is `missense_variant`, and the maximum allele frequency
exceeds `0.005`. -/
def passes_multiple_filter (s : VcfInfo) : Bool :=
  let cq := info_cq s
  if cq = Val.vstr "missense_variant" ∧ benign_polyphen s.info = true then
    false
  else if s.mutation_id = "NA" ∧ cq = Val.vstr "missense_variant" then
    -- the source's literal `0.005`, written as an exact rational
    if maf_value s > mkRat 5 1000 then false else true
  else
    true

/-- A configured filtering condition: `("list", allowed-values)` or
`("smaller_than", bound)` in the filters dictionary. -/
inductive FilterCond where
  | clist (allowed : Option (List Val))
  | smaller_than (bound : ℚ)

/-- The filters dictionary, consulted only by key lookup. -/
abbrev Filters := String → Option FilterCond

/-- The per-field loop of `VcfInfo.passes_filters`: walk the INFO entries
in insertion order, apply the configured condition to each key that has
one, and stop at the first failure. -/
def passes_fields (info : Dict) (filters : Filters) : Bool :=
  match info with
  | [] => true
  | (k, v) :: rest =>
    match filters k with
    | none => passes_fields rest filters
    | some (.clist fv) => passes_list v fv && passes_fields rest filters
    | some (.smaller_than b) => passes_smaller_than v b && passes_fields rest filters

/-- What one call of `VcfInfo.passes_filters` produces: the returned
boolean, whether the `show_fail` diagnostic was printed, and the object
state after the call (the method mutates `self.show_fail_point`). -/
structure FilterOutcome where
  result : Bool
  emitted : Bool
  state : VcfInfo

/-- Source `VcfInfo.passes_filters`: set `show_fail_point` from the hard-coded
debug coordinate, run the per-field loop, then run the compound rule when
every per-field check passed; print the fail diagnostic when the record
fails and sits at the debug coordinate. -/
def passes_filters (s : VcfInfo) (filters : Filters) : FilterOutcome :=
  let sfp := s.chrom = "19" ∧ s.position = "50881821"
  let s' : VcfInfo := { s with show_fail_point := decide sfp }
  let result := passes_fields s'.info filters && passes_multiple_filter s'
  { result := result, emitted := !result && decide sfp, state := s' }

/-- Split one semicolon-separated INFO item into a dict binding: an item
containing `=` is split at its first `=` (the source's
`item.split("=")` with the `ValueError` fallback to `item.index("=")`
always splits at the first `=`); an item without `=` becomes the flag
`True`. -/
def parse_item (item : List Char) : String × Val :=
  if '=' ∈ item then
    let k := item.takeWhile (· ≠ '=')
    (k.asString, Val.vstr (item.drop (k.length + 1)).asString)
  else
    (item.asString, Val.vflag)

/-- The parsing loop of `VcfInfo.add_info`: split the INFO text on `;`
and insert each item's binding. -/
def parse_info_items (info_values : String) : Dict :=
  (splitChar ';' info_values.toList).foldl
    (fun d item =>
      let kv := parse_item item
      dinsert d kv.1 kv.2)
    []

/-- One step of the `add_consequence` loop: copy the tag's value into
`"CQ"` when the tag has a binding. -/
def cq_step (d : Dict) (c : String) : Dict :=
  match List.lookup c d with
  | some v => dinsert d "CQ" v
  | none => d

/-- Source `VcfInfo.add_consequence`: for each configured consequence tag in
order, copy its value (when present) into `"CQ"`; if no `"CQ"` binding
exists afterwards, set it to `None`. -/
def add_consequence (tags_consequence : List String) (d : Dict) : Dict :=
  let d' := tags_consequence.foldl cq_step d
  if (List.lookup "CQ" d').isSome then d' else dinsert d' "CQ" Val.vnone

/-- Source `VcfInfo.add_info`: parse the INFO text, record the filter status
under `"FILTER"`, and ensure a consequence binding.  (The
`add_gene_from_info` step only sets `self.gene` and does not touch the
dict, so it is omitted here.) -/
def add_info (info_values : String) (filt : Val) (tags_consequence : List String) : Dict :=
  add_consequence tags_consequence (dinsert (parse_info_items info_values) "FILTER" filt)

/-- The last configured consequence tag that has a binding in the dict
(what the `add_consequence` loop leaves in `"CQ"` when no tag is itself
named `"CQ"`). -/
def last_present_tag (tags : List String) (d : Dict) : Option String :=
  tags.reverse.find? (fun c => (List.lookup c d).isSome)

/-- A parent's sex, as exposed by the family descriptor.  Modelled from
the spec: the `Person` class (`Person.is_male` / `Person.is_female` /
`Person.get_gender`) is not part of the analysed sources; the spec
describes a male/female sex per parent. -/
inductive Gender where
  | male
  | female
deriving DecidableEq

/-- Modelled from the spec: the slice of the `Person` family descriptor
read by `get_parental_var`. -/
structure Person where
  gender : Gender
deriving DecidableEq

/-- Source `Person.is_male`. -/
def Person.is_male (p : Person) : Bool := p.gender = Gender.male

/-- Source `Person.is_female`. -/
def Person.is_female (p : Person) : Bool := p.gender = Gender.female

/-- The slice of a `Variant` object read by `get_parental_var`: the raw
record columns, the CNV discriminant (`is_cnv`), the CNV inheritance
class (`get_cnv_inheritance`), and the matching key (`get_key`, modelled
from the spec as the genomic coordinate identity used for matching
across family members). -/
structure Variant where
  chrom : String
  position : Int
  variant_id : String
  ref_allele : String
  alt_alleles : List String
  qual : String
  filter : String
  info_str : String
  is_cnv : Bool
  cnv_inheritance : String
  key : String × Int
deriving DecidableEq

/-- The variant kind chosen for a synthesized default parental record
(the `Var = SNV` / `Var = CNV` assignment in `get_parental_var`). -/
inductive VarKind where
  | SNV
  | CNV
deriving DecidableEq

/-- The argument tuple passed to the `SNV`/`CNV` constructor when
`get_parental_var` synthesizes a default parental record. -/
structure SynthRecord where
  kind : VarKind
  chrom : String
  position : Int
  variant_id : String
  ref_allele : String
  alts : String
  qual : String
  filter : String
  info_str : String
  format_key : String
  format_sample : String
  gender : Gender
deriving DecidableEq

/-- The result of `get_parental_var`: either an existing parental
`Variant` object, or a freshly constructed default record. -/
inductive ParentalVar where
  | matched (v : Variant)
  | synthesized (r : SynthRecord)
deriving DecidableEq

/-- Source `get_parental_var` (load_vcfs.py): return the first parental variant
with an equal key — but only for non-CNV child variants — and otherwise
synthesize a default parental record: genotype `GT = 0/0` with the
child's alternate alleles for SNVs; for CNVs, `INHERITANCE = uncertain`
with the child's alternate alleles when the parent's sex matches the
child's CNV inheritance class, and the no-call `<REF>` otherwise. -/
def get_parental_var (var : Variant) (parental_vars : List Variant) (parent : Person) :
    ParentalVar :=
  match parental_vars.find? (fun parental => !var.is_cnv && decide (var.key = parental.key)) with
  | some parental => .matched parental
  | none =>
    if var.is_cnv then
      let inh := var.cnv_inheritance
      let alts : List String :=
        if parent.is_male && (inh = "paternal" || inh = "biparental" : Bool) then
          var.alt_alleles
        else if parent.is_female && (inh = "maternal" || inh = "biparental" : Bool) then
          var.alt_alleles
        else
          ["<REF>"]
      .synthesized
        { kind := .CNV, chrom := var.chrom, position := var.position,
          variant_id := var.variant_id, ref_allele := var.ref_allele,
          alts := String.intercalate "," alts, qual := var.qual,
          filter := var.filter, info_str := var.info_str,
          format_key := "INHERITANCE", format_sample := "uncertain",
          gender := parent.gender }
    else
      .synthesized
        { kind := .SNV, chrom := var.chrom, position := var.position,
          variant_id := var.variant_id, ref_allele := var.ref_allele,
          alts := String.intercalate "," var.alt_alleles, qual := var.qual,
          filter := var.filter, info_str := var.info_str,
          format_key := "GT", format_sample := "0/0",
          gender := parent.gender }

/-- A tokenized VCF line as consumed by `open_individual`, abstracted to
the data its control flow reads: the key columns `line[0]` and `line[1]`,
and two modelled outcomes.  `genotype_ok` — modelled from the spec:
whether `construct_variant` (clinicalfilter.utils, not among the analysed
sources) succeeds, i.e. the genotype is representable; it raises
`ValueError` exactly for a heterozygous male call on the non-pseudoautosomal
X chromosome.  `passes` — modelled from the spec: the verdict of
`var.passes_filters()` on the constructed variant (the policy evaluator
itself is embedded separately above as `VcfInfo.passes_filters`). -/
structure Line where
  chrom : String
  pos : Int
  genotype_ok : Bool
  passes : Bool
deriving DecidableEq

/-- Modelled from the spec: `construct_variant` returns the variant built
from the line (identified here with the line itself) and raises
`ValueError` — modelled as `none` — when the genotype cannot be
represented. -/
def construct_variant (l : Line) : Option Line :=
  if l.genotype_ok then some l else none

/-- Source `include_variant` (load_vcfs.py): with a proband key set available
(parent role), include exactly the lines whose `(chrom, int(pos))` key is
a member; otherwise (proband role) construct the variant and apply the
filter policy.  `none` models a `ValueError` escaping to the caller. -/
def include_variant (l : Line) (child_variants : Option (List (String × Int))) : Option Bool :=
  match child_variants with
  | some keys => some (decide ((l.chrom, l.pos) ∈ keys))
  | none => (construct_variant l).map Line.passes

/-- The body of the `open_individual` scan loop for one line: run
`include_variant` and, when it says to keep the line, materialize the
variant with `construct_variant`.  `none` covers both the not-included
case and a `ValueError` raised anywhere inside the `try` block (which the
source catches, skipping the single line). -/
def kept_line (l : Line) (child_variants : Option (List (String × Int))) : Option Line :=
  match include_variant l child_variants with
  | none => none
  | some false => none
  | some true => construct_variant l

/-- The scan loop of `open_individual` (load_vcfs.py): process each line
with `kept_line`, collecting the materialized variants; an invalid line
contributes nothing and the scan continues. -/
def open_individual (lines : List Line) (child_variants : Option (List (String × Int))) :
    List Line :=
  match lines with
  | [] => []
  | l :: rest =>
    match kept_line l child_variants with
    | some v => v :: open_individual rest child_variants
    | none => open_individual rest child_variants

/-! ## Helper lemmas -/

/-- Looking up the key just written by `dinsert` returns the new value. -/
theorem lookup_dinsert_self (d : Dict) (k : String) (v : Val) :
    List.lookup k (dinsert d k v) = some v := by
  induction d with
  | nil => simp [dinsert]
  | cons kv rest ih =>
    obtain ⟨k', v'⟩ := kv
    by_cases h : k' = k
    · subst h
      simp [dinsert, List.lookup]
    · simp [dinsert, h, List.lookup, beq_eq_false_iff_ne.mpr (Ne.symm h), ih]

/-- Lemma: `dinsert` leaves the bindings of other keys unchanged. -/
theorem lookup_dinsert_ne (d : Dict) (k k' : String) (v : Val) (h : k' ≠ k) :
    List.lookup k' (dinsert d k v) = List.lookup k' d := by
  induction d with
  | nil => simp [dinsert, List.lookup, beq_eq_false_iff_ne.mpr h]
  | cons kv rest ih =>
    obtain ⟨k₀, v₀⟩ := kv
    by_cases h0 : k₀ = k
    · subst h0
      simp [dinsert, List.lookup, beq_eq_false_iff_ne.mpr h]
    · by_cases h1 : k' = k₀
      · subst h1
        simp [dinsert, h0, List.lookup]
      · simp [dinsert, h0, List.lookup, beq_eq_false_iff_ne.mpr h1, ih]

/-- Lemma: `cq_step` writes only the `"CQ"` binding. -/
theorem lookup_cq_step_ne (d : Dict) (c k : String) (h : k ≠ "CQ") :
    List.lookup k (cq_step d c) = List.lookup k d := by
  unfold cq_step
  cases List.lookup c d with
  | none => rfl
  | some v => exact lookup_dinsert_ne _ _ _ _ h

/-- The whole `add_consequence` loop writes only the `"CQ"` binding. -/
theorem lookup_foldl_cq_step_ne (tags : List String) (d : Dict) (k : String) (h : k ≠ "CQ") :
    List.lookup k (tags.foldl cq_step d) = List.lookup k d := by
  induction tags generalizing d with
  | nil => rfl
  | cons c cs ih => simpa [List.foldl_cons, ih] using (ih (cq_step d c)).trans (lookup_cq_step_ne d c k h)

/-- When none of the tags has a binding, the `add_consequence` loop is the
identity. -/
theorem foldl_cq_step_absent (tags : List String) (d : Dict)
    (h : ∀ c ∈ tags, List.lookup c d = none) :
    tags.foldl cq_step d = d := by
  induction tags with
  | nil => rfl
  | cons c cs ih =>
    have hc : cq_step d c = d := by simp [cq_step, h c (by simp)]
    simp only [List.foldl_cons, hc]
    exact ih (fun c' hc' => h c' (by simp [hc']))

/-- Lemma: `List.find?` only depends on the predicate's values on the list. -/
theorem find?_eq_of_agree {α : Type} (p q : α → Bool) (l : List α)
    (h : ∀ a ∈ l, p a = q a) : l.find? p = l.find? q := by
  induction l with
  | nil => rfl
  | cons a as ih =>
    have ha := h a (by simp)
    cases hq : q a with
    | true => simp [List.find?, ha, hq]
    | false =>
      simp only [List.find?, ha, hq]
      exact ih (fun b hb => h b (by simp [hb]))

/-- What the `add_consequence` loop leaves in `"CQ"` (when no configured
tag is itself named `"CQ"`): the base value of the last present tag, or
the untouched `"CQ"` binding when no tag is present. -/
theorem cq_after_fold (tags : List String) (d : Dict) (h : "CQ" ∉ tags) :
    List.lookup "CQ" (tags.foldl cq_step d) =
      (match last_present_tag tags d with
       | some t => List.lookup t d
       | none => List.lookup "CQ" d) := by
  induction tags generalizing d with
  | nil => simp [last_present_tag]
  | cons c cs ih =>
    have hc : c ≠ "CQ" := fun hq => h (hq ▸ List.mem_cons_self c cs)
    have hcs : "CQ" ∉ cs := fun hm => h (List.mem_cons_of_mem c hm)
    have hlast : last_present_tag cs (cq_step d c) = last_present_tag cs d := by
      unfold last_present_tag
      refine find?_eq_of_agree _ _ _ (fun t ht => ?_)
      have htne : t ≠ "CQ" := by
        intro hq
        subst hq
        exact hcs (List.mem_reverse.mp ht)
      rw [lookup_cq_step_ne d c t htne]
    rw [List.foldl_cons, ih (cq_step d c) hcs, hlast]
    cases hfind : last_present_tag cs d with
    | some t =>
      have htmem : t ∈ cs := by
        have := List.mem_of_find?_eq_some hfind
        exact List.mem_reverse.mp this
      have htne : t ≠ "CQ" := fun hq => hcs (hq ▸ htmem)
      have hout : last_present_tag (c :: cs) d = some t := by
        unfold last_present_tag at hfind ⊢
        rw [List.reverse_cons, List.find?_append, hfind]
        rfl
      simp only [hfind, hout, lookup_cq_step_ne d c t htne]
    | none =>
      cases hcd : List.lookup c d with
      | some v =>
        have hout : last_present_tag (c :: cs) d = some c := by
          unfold last_present_tag at hfind ⊢
          rw [List.reverse_cons, List.find?_append, hfind]
          simp [List.find?, hcd]
        have hstep : cq_step d c = dinsert d "CQ" v := by simp [cq_step, hcd]
        simp only [hfind, hout, hstep, lookup_dinsert_self, hcd]
      | none =>
        have hout : last_present_tag (c :: cs) d = none := by
          unfold last_present_tag at hfind ⊢
          rw [List.reverse_cons, List.find?_append, hfind]
          simp [List.find?, hcd]
        have hstep : cq_step d c = d := by simp [cq_step, hcd]
        simp only [hfind, hout, hstep]

/-- Specialization of `cq_after_fold` when some tag is present. -/
theorem cq_after_fold_some (tags : List String) (d : Dict) (t : String) (h : "CQ" ∉ tags)
    (hfind : last_present_tag tags d = some t) :
    List.lookup "CQ" (tags.foldl cq_step d) = List.lookup t d := by
  have hx := cq_after_fold tags d h
  rw [hfind] at hx
  exact hx

/-- Specialization of `cq_after_fold` when no tag is present. -/
theorem cq_after_fold_none (tags : List String) (d : Dict) (h : "CQ" ∉ tags)
    (hfind : last_present_tag tags d = none) :
    List.lookup "CQ" (tags.foldl cq_step d) = List.lookup "CQ" d := by
  have hx := cq_after_fold tags d h
  rw [hfind] at hx
  exact hx

/-! ## Claim theorems -/

/-- C10 counterexample: parsing the Info text `"CQ=hello"` with an empty
configured consequence-tag list leaves `"CQ"` bound to the raw parsed
value `"hello"`, not to the none value the claim predicts when no
consequence tag is present. -/
theorem clinical_C10_counterexample :
    List.lookup "CQ" (add_info "CQ=hello" (Val.vstr "PASS") []) = some (Val.vstr "hello") ∧
    List.lookup "CQ" (add_info "CQ=hello" (Val.vstr "PASS") []) ≠ some Val.vnone := by
  constructor
  · rfl
  · decide

/-- C10 (amended): after `add_info`, the info dict always contains
`"FILTER"` (bound to the record's filter status) and `"CQ"`; when no
configured tag is named `"CQ"`, the final `"CQ"` binding is the value of
the last configured consequence tag present, and when no tag is present
it keeps the `"CQ"` entry parsed from the Info text if one exists and is
the none value otherwise; an item containing `"="` splits at its first
`"="` and an item without `"="` becomes the boolean flag. -/
theorem clinical_C10_add_info_invariant :
    (∀ (text : String) (filt : Val) (tags : List String),
        List.lookup "FILTER" (add_info text filt tags) = some filt)
    ∧ (∀ (text : String) (filt : Val) (tags : List String),
        (List.lookup "CQ" (add_info text filt tags)).isSome = true)
    ∧ (∀ (text : String) (filt : Val) (tags : List String), "CQ" ∉ tags →
        List.lookup "CQ" (add_info text filt tags) = some
          (match last_present_tag tags (dinsert (parse_info_items text) "FILTER" filt) with
           | some t =>
             (List.lookup t (dinsert (parse_info_items text) "FILTER" filt)).getD Val.vnone
           | none => (List.lookup "CQ" (parse_info_items text)).getD Val.vnone))
    ∧ parse_info_items "AB=1=2;FLAG" = [("AB", Val.vstr "1=2"), ("FLAG", Val.vflag)] := by
  have hne : ("FILTER" : String) ≠ "CQ" := by decide
  have hcqf : ("CQ" : String) ≠ "FILTER" := by decide
  refine ⟨?_, ?_, ?_, by rfl⟩
  · intro text filt tags
    unfold add_info add_consequence
    set d0 : Dict := dinsert (parse_info_items text) "FILTER" filt with hd0
    by_cases h : (List.lookup "CQ" (tags.foldl cq_step d0)).isSome = true
    · simp only [h, if_true]
      rw [lookup_foldl_cq_step_ne tags d0 "FILTER" hne, hd0, lookup_dinsert_self]
    · simp only [h, if_false, Bool.false_eq_true]
      rw [lookup_dinsert_ne _ _ _ _ hne,
        lookup_foldl_cq_step_ne tags d0 "FILTER" hne, hd0, lookup_dinsert_self]
  · intro text filt tags
    unfold add_info add_consequence
    set d0 : Dict := dinsert (parse_info_items text) "FILTER" filt
    by_cases h : (List.lookup "CQ" (tags.foldl cq_step d0)).isSome = true
    · simp only [h, if_true]
    · simp only [h, if_false, Bool.false_eq_true]
      rw [lookup_dinsert_self]
      rfl
  · intro text filt tags htags
    unfold add_info add_consequence
    set d0 : Dict := dinsert (parse_info_items text) "FILTER" filt with hd0
    cases hfind : last_present_tag tags d0 with
    | some t =>
      have hpres : (List.lookup t d0).isSome = true := by
        unfold last_present_tag at hfind
        have hp := List.find?_some hfind
        exact hp
      cases hlook : List.lookup t d0 with
      | none => rw [hlook] at hpres; simp at hpres
      | some v =>
        have hcqv : List.lookup "CQ" (tags.foldl cq_step d0) = some v := by
          rw [cq_after_fold_some tags d0 t htags hfind, hlook]
        show List.lookup "CQ"
            (if (List.lookup "CQ" (tags.foldl cq_step d0)).isSome = true
             then tags.foldl cq_step d0
             else dinsert (tags.foldl cq_step d0) "CQ" Val.vnone) =
          some ((List.lookup t d0).getD Val.vnone)
        rw [hcqv, hlook]
        simp [hcqv]
    | none =>
      have hcqv : List.lookup "CQ" (tags.foldl cq_step d0) =
          List.lookup "CQ" (parse_info_items text) := by
        rw [cq_after_fold_none tags d0 htags hfind, hd0, lookup_dinsert_ne _ _ _ _ hcqf]
      show List.lookup "CQ"
          (if (List.lookup "CQ" (tags.foldl cq_step d0)).isSome = true
           then tags.foldl cq_step d0
           else dinsert (tags.foldl cq_step d0) "CQ" Val.vnone) =
        some ((List.lookup "CQ" (parse_info_items text)).getD Val.vnone)
      cases hraw : List.lookup "CQ" (parse_info_items text) with
      | some v =>
        rw [hraw] at hcqv
        simp [hcqv]
      | none =>
        rw [hraw] at hcqv
        simp [hcqv, lookup_dinsert_self]

/-- C10 witness: instantiating the no-tag-present case of the amended
`add_info` characterization on a concrete Info text. -/
theorem clinical_C10_witness :
    List.lookup "CQ" (add_info "X=1" (Val.vstr "PASS") ["VCQ"]) = some
      (match last_present_tag ["VCQ"] (dinsert (parse_info_items "X=1") "FILTER" (Val.vstr "PASS")) with
       | some t =>
         (List.lookup t (dinsert (parse_info_items "X=1") "FILTER" (Val.vstr "PASS"))).getD Val.vnone
       | none => (List.lookup "CQ" (parse_info_items "X=1")).getD Val.vnone) :=
  clinical_C10_add_info_invariant.2.2.1 "X=1" (Val.vstr "PASS") ["VCQ"] (by decide)

/-- C7: a categorical-membership rule with a `None` allowed set always
fails without raising, and in general the check passes exactly when the
allowed set exists and contains the record's value. -/
theorem clinical_C7_list_condition (v : Val) (fv : Option (List Val)) :
    passes_list v none = false ∧
    (passes_list v fv = true ↔ ∃ l, fv = some l ∧ v ∈ l) := by
  refine ⟨rfl, ?_⟩
  cases fv with
  | none => simp [passes_list]
  | some l => simp [passes_list]

/-- C4: a numeric-upper-bound check passes exactly when the value's
numeric coercion fails or the coerced number is at most the configured
bound; and the coercion tries a direct float parse first, falling back on
the first comma-separated piece that parses (failing only when none
does). -/
theorem clinical_C4_numeric_bound :
    (∀ (v : Val) (b : ℚ),
        passes_smaller_than v b = true ↔
          get_number v = none ∨ ∃ q, get_number v = some q ∧ q ≤ b)
    ∧ (∀ (s : String) (q : ℚ), floatParse s = some q → get_number (Val.vstr s) = some q)
    ∧ (∀ s : String, floatParse s = none →
        get_number (Val.vstr s) =
          (splitChar ',' s.toList).findSome? parseFloatChars) := by
  refine ⟨?_, ?_, ?_⟩
  · intro v b
    unfold passes_smaller_than
    cases h : get_number v <;> simp [h]
  · intro s q h
    simp [get_number, h]
  · intro s h
    simp [get_number, h]

/-- C4 witness: a value whose direct parse fails but whose second
comma-piece parses to `0.639860`, checked against the bound `1`. -/
theorem clinical_C4_witness :
    passes_smaller_than (Val.vstr ".,0.639860") 1 = true ∧
    get_number (Val.vstr ".,0.639860") =
      (splitChar ',' ".,0.639860".toList).findSome? parseFloatChars := by
  refine ⟨?_, clinical_C4_numeric_bound.2.2 ".,0.639860" (by decide)⟩
  exact (clinical_C4_numeric_bound.1 (Val.vstr ".,0.639860") 1).2
    (Or.inr ⟨mkRat 31993 50000, by decide, by decide⟩)

/-- C6: in the compound rule, a maximum population frequency of exactly
`0.005` does not trigger the frequency rejection, while `0.0050001`
does (all other premises of the frequency condition being satisfied:
mutation identifier `"NA"`, consequence `missense_variant`). -/
theorem clinical_C6_frequency_boundary :
    passes_multiple_filter
      { chrom := "1", position := "5", filter := Val.vstr "PASS", mutation_id := "NA",
        tags_consequence := ["CQ"], tags_max_maf := ["MAX_AF"],
        info := [("CQ", Val.vstr "missense_variant"), ("MAX_AF", Val.vstr "0.005"),
                 ("FILTER", Val.vstr "PASS")],
        show_fail_point := false } = true ∧
    passes_multiple_filter
      { chrom := "1", position := "5", filter := Val.vstr "PASS", mutation_id := "NA",
        tags_consequence := ["CQ"], tags_max_maf := ["MAX_AF"],
        info := [("CQ", Val.vstr "missense_variant"), ("MAX_AF", Val.vstr "0.0050001"),
                 ("FILTER", Val.vstr "PASS")],
        show_fail_point := false } = false := by
  constructor <;> decide

/-- C1 counterexample: a record whose consequence is `missense_variant`
and which carries a benign PolyPhen annotation is rejected by the
compound rule — the code's first branch returns `False` for exactly this
combination, so the claim's benign-prediction exemption (and its
"never rejected" consequence) does not hold. -/
theorem clinical_C1_counterexample :
    passes_multiple_filter
      { chrom := "1", position := "100", filter := Val.vstr "PASS", mutation_id := "CM000001",
        tags_consequence := ["CQ"], tags_max_maf := ["MAX_AF"],
        info := [("CQ", Val.vstr "missense_variant"), ("PolyPhen", Val.vstr "benign(0.05)"),
                 ("FILTER", Val.vstr "PASS")],
        show_fail_point := false } = false ∧
    info_cq
      { chrom := "1", position := "100", filter := Val.vstr "PASS", mutation_id := "CM000001",
        tags_consequence := ["CQ"], tags_max_maf := ["MAX_AF"],
        info := [("CQ", Val.vstr "missense_variant"), ("PolyPhen", Val.vstr "benign(0.05)"),
                 ("FILTER", Val.vstr "PASS")],
        show_fail_point := false } = Val.vstr "missense_variant" ∧
    benign_polyphen
      [("CQ", Val.vstr "missense_variant"), ("PolyPhen", Val.vstr "benign(0.05)"),
       ("FILTER", Val.vstr "PASS")] = true := by
  refine ⟨by decide, by decide, by decide⟩

/-- C1 (amended): the compound rule rejects a record exactly when
(consequence is `missense_variant` and a benign PolyPhen annotation is
present) **or** (the mutation identifier is `"NA"`, the consequence is
`missense_variant`, and the maximum population frequency — zero when
absent — exceeds `0.005`). -/
theorem clinical_C1_compound_rule (s : VcfInfo) :
    passes_multiple_filter s = false ↔
      (info_cq s = Val.vstr "missense_variant" ∧ benign_polyphen s.info = true) ∨
      (s.mutation_id = "NA" ∧ info_cq s = Val.vstr "missense_variant" ∧
        maf_value s > mkRat 5 1000) := by
  unfold passes_multiple_filter
  by_cases hcq : info_cq s = Val.vstr "missense_variant" <;>
    by_cases hb : benign_polyphen s.info = true <;>
      by_cases hm : s.mutation_id = "NA" <;>
        by_cases hf : maf_value s > mkRat 5 1000 <;>
          simp [hcq, hb, hm, hf]

/-- C8: the filter-policy evaluator is a pure function of the INFO data
and the policy — re-running it on the state it produced yields the same
boolean, the incoming `show_fail_point` flag has no effect, and the
debug coordinate (which only controls trace emission) has no effect on
the returned result. -/
theorem clinical_C8_evaluator_purity :
    (∀ (s : VcfInfo) (f : Filters),
        (passes_filters (passes_filters s f).state f).result = (passes_filters s f).result)
    ∧ (∀ (s : VcfInfo) (f : Filters) (b : Bool),
        (passes_filters { s with show_fail_point := b } f).result =
          (passes_filters s f).result)
    ∧ (∀ (s : VcfInfo) (f : Filters) (c p : String),
        (passes_filters { s with chrom := c, position := p } f).result =
          (passes_filters s f).result) := by
  refine ⟨fun s f => rfl, fun s f b => rfl, fun s f c p => rfl⟩

/-- C2: for a CNV child variant the resolver never matches a parental
record (even one with an equal key) and always synthesizes the default
parental record: `INHERITANCE = uncertain`, with the child's alternate
alleles exactly when the parent's sex matches the inheritance class
(male with paternal/biparental, female with maternal/biparental), and
the no-call `"<REF>"` otherwise. -/
theorem clinical_C2_cnv_default_synthesis (var : Variant) (pvars : List Variant)
    (parent : Person) (h : var.is_cnv = true) :
    get_parental_var var pvars parent = ParentalVar.synthesized
      { kind := VarKind.CNV, chrom := var.chrom, position := var.position,
        variant_id := var.variant_id, ref_allele := var.ref_allele,
        alts := if (parent.gender = Gender.male ∧
                      (var.cnv_inheritance = "paternal" ∨ var.cnv_inheritance = "biparental")) ∨
                   (parent.gender = Gender.female ∧
                      (var.cnv_inheritance = "maternal" ∨ var.cnv_inheritance = "biparental"))
                then String.intercalate "," var.alt_alleles
                else "<REF>",
        qual := var.qual, filter := var.filter, info_str := var.info_str,
        format_key := "INHERITANCE", format_sample := "uncertain",
        gender := parent.gender } := by
  unfold get_parental_var
  have hfind : pvars.find?
      (fun parental => !var.is_cnv && decide (var.key = parental.key)) = none :=
    List.find?_eq_none.mpr (fun p _ => by simp [h])
  rw [hfind]
  have hsingle : String.intercalate "," ["<REF>"] = "<REF>" := rfl
  cases hg : parent.gender <;>
    by_cases hp : var.cnv_inheritance = "paternal" <;>
      by_cases hbp : var.cnv_inheritance = "biparental" <;>
        by_cases hm : var.cnv_inheritance = "maternal" <;>
          simp_all [Person.is_male, Person.is_female, hsingle]

/-- C2 witness: a CNV child call with maternal inheritance and a
parental list containing an equal-keyed record; the resolver still
synthesizes the default, and the female parent receives the child's
alleles. -/
theorem clinical_C2_witness :
    get_parental_var
      { chrom := "3", position := 5000, variant_id := "cnv1", ref_allele := "A",
        alt_alleles := ["<DUP>"], qual := "50", filter := "PASS", info_str := "CQ=x",
        is_cnv := true, cnv_inheritance := "maternal", key := ("3", 5000) }
      [{ chrom := "3", position := 5000, variant_id := "cnv9", ref_allele := "A",
         alt_alleles := ["<DUP>"], qual := "99", filter := "PASS", info_str := "CQ=x",
         is_cnv := true, cnv_inheritance := "unknown", key := ("3", 5000) }]
      { gender := Gender.female } = ParentalVar.synthesized
      { kind := VarKind.CNV, chrom := "3", position := 5000, variant_id := "cnv1",
        ref_allele := "A", alts := "<DUP>", qual := "50", filter := "PASS",
        info_str := "CQ=x", format_key := "INHERITANCE", format_sample := "uncertain",
        gender := Gender.female } := by
  rw [clinical_C2_cnv_default_synthesis _ _ _ rfl]
  decide

/-- C5: for a non-CNV child variant with no equal-keyed parental record,
the resolver synthesizes a default SNV parental record with genotype
`GT = 0/0`, the child's coordinates, identifier, reference allele and
(joined) alternate alleles, tagged with the parent's sex. -/
theorem clinical_C5_snv_default_synthesis (var : Variant) (pvars : List Variant)
    (parent : Person) (h : var.is_cnv = false) (hk : ∀ p ∈ pvars, var.key ≠ p.key) :
    get_parental_var var pvars parent = ParentalVar.synthesized
      { kind := VarKind.SNV, chrom := var.chrom, position := var.position,
        variant_id := var.variant_id, ref_allele := var.ref_allele,
        alts := String.intercalate "," var.alt_alleles, qual := var.qual,
        filter := var.filter, info_str := var.info_str,
        format_key := "GT", format_sample := "0/0",
        gender := parent.gender } := by
  unfold get_parental_var
  have hfind : pvars.find?
      (fun parental => !var.is_cnv && decide (var.key = parental.key)) = none :=
    List.find?_eq_none.mpr (fun p hp => by simp [hk p hp])
  rw [hfind]
  simp [h]

/-- C5 witness: an SNV child call whose key matches none of the parental
records. -/
theorem clinical_C5_witness :
    get_parental_var
      { chrom := "2", position := 1000, variant_id := "rs11", ref_allele := "A",
        alt_alleles := ["G", "T"], qual := "40", filter := "PASS", info_str := "CQ=x",
        is_cnv := false, cnv_inheritance := "", key := ("2", 1000) }
      [{ chrom := "2", position := 2000, variant_id := "rs12", ref_allele := "C",
         alt_alleles := ["T"], qual := "40", filter := "PASS", info_str := "CQ=x",
         is_cnv := false, cnv_inheritance := "", key := ("2", 2000) }]
      { gender := Gender.male } = ParentalVar.synthesized
      { kind := VarKind.SNV, chrom := "2", position := 1000, variant_id := "rs11",
        ref_allele := "A", alts := "G,T", qual := "40", filter := "PASS",
        info_str := "CQ=x", format_key := "GT", format_sample := "0/0",
        gender := Gender.male } := by
  rw [clinical_C5_snv_default_synthesis _ _ _ rfl (by decide)]
  decide

/-- C3 counterexample: a parental line whose key is in the proband's
accepted-key set but whose genotype cannot be represented is not
materialized — the loader returns no record for it, refuting the claimed
"if and only if key membership". -/
theorem clinical_C3_counterexample :
    open_individual [{ chrom := "X", pos := 150, genotype_ok := false, passes := true }]
      (some [("X", 150)]) = [] ∧
    (("X", (150 : Int)) ∈ [(("X" : String), (150 : Int))]) := by
  constructor <;> decide

/-- C3 (amended): when loading a parent against the proband's key set,
exactly the lines whose key is a member of the set **and** whose variant
construction succeeds are materialized; the result is a function of key
membership and genotype validity only — the policy verdict carried by
each line is never consulted. -/
theorem clinical_C3_parent_loading (lines : List Line) (keys : List (String × Int)) :
    open_individual lines (some keys) =
      lines.filter (fun l => decide ((l.chrom, l.pos) ∈ keys) && l.genotype_ok) := by
  induction lines with
  | nil => rfl
  | cons l rest ih =>
    by_cases hk : (l.chrom, l.pos) ∈ keys <;> by_cases hg : l.genotype_ok = true <;>
      simp [open_individual, kept_line, include_variant, construct_variant, hk, hg, ih,
        List.filter_cons]

/-- C9: a line whose variant construction raises the invalid-genotype
error contributes no record, and the scan of the remaining lines
continues as if the line were absent (the loader is total, so it never
aborts). -/
theorem clinical_C9_invalid_line_skipped (pre post : List Line) (l : Line)
    (cv : Option (List (String × Int))) (h : construct_variant l = none) :
    open_individual (pre ++ l :: post) cv = open_individual (pre ++ post) cv := by
  have hkept : kept_line l cv = none := by
    cases cv with
    | none => simp [kept_line, include_variant, h]
    | some keys =>
      by_cases hk : ((l.chrom, l.pos) ∈ keys) <;> simp [kept_line, include_variant, hk, h]
  induction pre with
  | nil => simp [open_individual, hkept]
  | cons p ps ih =>
    simp only [List.cons_append, open_individual]
    cases kept_line p cv <;> simp [ih]

/-- C9 witness: a proband scan in which the middle line has an
unrepresentable genotype; the result equals the scan without that
line. -/
theorem clinical_C9_witness :
    open_individual
      [{ chrom := "1", pos := 100, genotype_ok := true, passes := true },
       { chrom := "X", pos := 150, genotype_ok := false, passes := true },
       { chrom := "2", pos := 200, genotype_ok := true, passes := false }] none =
    open_individual
      [{ chrom := "1", pos := 100, genotype_ok := true, passes := true },
       { chrom := "2", pos := 200, genotype_ok := true, passes := false }] none :=
  clinical_C9_invalid_line_skipped
    [{ chrom := "1", pos := 100, genotype_ok := true, passes := true }]
    [{ chrom := "2", pos := 200, genotype_ok := true, passes := false }]
    { chrom := "X", pos := 150, genotype_ok := false, passes := true } none rfl
